import Mathlib

/-!
Shallow embedding of the monitoring engine of the HeizungsPI2 repository
(heating-circuit monitoring on a Raspberry Pi), together with theorems
checking the natural-language specification against the code.

Temperatures and times are modelled as rationals (`ℚ`); Python `None`
becomes `Option`; Python dictionaries become records or explicit maps.
Sources: `src/sensors/heating_sensors.py`, `src/utils/alerts.py`,
`src/sensors/dht22_sensor.py`, `main.py`.
-/

/-- Integer rounding half-to-even, the tie-breaking rule of Python's
built-in `round`. -/
def roundHalfToEven (x : ℚ) : ℤ :=
  if x - ⌊x⌋ < 1/2 then ⌊x⌋
  else if 1/2 < x - ⌊x⌋ then ⌊x⌋ + 1
  else if ⌊x⌋ % 2 = 0 then ⌊x⌋ else ⌊x⌋ + 1

/-- Python's `round(x, ndigits)` on our idealized rational values:
round half-to-even at the given decimal place. -/
def pyRound (ndigits : ℕ) (x : ℚ) : ℚ :=
  (roundHalfToEven (x * 10 ^ ndigits) : ℚ) / 10 ^ ndigits

/-- One heating circuit (`HeatingCircuit` dataclass,
`src/sensors/heating_sensors.py` lines 16-153).  `flow_sensor` /
`return_sensor` are the optional bound sensor handles (`None` when the
configured sensor id was not found on the bus).  `flow_reading` /
`return_reading` model the outcome of `get_temperature()` on the bound
sensor for the current cycle: `none` when the driver call raises. -/
structure HeatingCircuit where
  name : String
  flow_sensor_id : String
  return_sensor_id : String
  target_temp : ℚ
  flow_sensor : Option Unit
  return_sensor : Option Unit
  flow_reading : Option ℚ
  return_reading : Option ℚ

/-- `HeatingCircuit.read_temperatures` (lines 56-85): each side is read
only if its sensor handle is bound; a successful reading is rounded to
two decimals; a failed reading yields `None` for that side only. -/
def read_temperatures (c : HeatingCircuit) : Option ℚ × Option ℚ :=
  (match c.flow_sensor with
    | some _ => c.flow_reading.map (fun t => pyRound 2 t)
    | none => none,
   match c.return_sensor with
    | some _ => c.return_reading.map (fun t => pyRound 2 t)
    | none => none)

/-- `HeatingCircuit.calculate_temperature_difference` (lines 87-101):
`round(flow_temp - return_temp, 2)` when both sides are present,
otherwise `None`. -/
def calculate_temperature_difference (c : HeatingCircuit) : Option ℚ :=
  match read_temperatures c with
  | (some flow_temp, some return_temp) => some (pyRound 2 (flow_temp - return_temp))
  | _ => none

/-- `HeatingCircuit.is_active` (lines 103-111):
`diff is not None and diff > 2.0`. -/
def is_active (c : HeatingCircuit) : Bool :=
  match calculate_temperature_difference c with
  | some diff => decide (2 < diff)
  | none => false

/-- `HeatingCircuit.is_available` (lines 134-136): both sensor handles
bound. -/
def is_available (c : HeatingCircuit) : Bool :=
  c.flow_sensor.isSome && c.return_sensor.isSome

/-- Temperature differences of the currently active circuits, exactly
the values accumulated by the loop in
`HeatingSystemManager._calculate_system_efficiency` (lines 293-300):
`diff is not None and diff > 2`. -/
def active_circuit_diffs (circuits : List HeatingCircuit) : List ℚ :=
  circuits.filterMap (fun c =>
    (calculate_temperature_difference c).bind
      (fun diff => if 2 < diff then some diff else none))

/-- `HeatingSystemManager._calculate_system_efficiency` (lines 286-311):
`None` when no circuit is active, otherwise
`round(min(100, max(0, (avg_diff - 5) / 10 * 67 + 33)), 1)` where
`avg_diff` averages the active circuits' differences. -/
def calculate_system_efficiency (circuits : List HeatingCircuit) : Option ℚ :=
  if (active_circuit_diffs circuits).length = 0 then none
  else some (pyRound 1 (min 100 (max 0
    (((active_circuit_diffs circuits).sum / ((active_circuit_diffs circuits).length : ℚ) - 5)
      / 10 * 67 + 33))))

/-- The message payloads of the three alert kinds built by
`HeatingSystemManager._check_alerts` (lines 313-353), keeping the
numeric argument of each German format string. -/
inductive AlertMessage where
  | ueberhitzung (flow_temp : ℚ)
  | geringe_effizienz (diff : ℚ)
  | sensor_ausfall
deriving DecidableEq

/-- One alert dictionary as built in `_check_alerts`: keys `type`
(the strings `kritisch` / `warnung` / `fehler`), `circuit`, `message`.
The `timestamp` key (wall-clock string) is omitted from the model. -/
structure Alert where
  type : String
  circuit : String
  message : AlertMessage
deriving DecidableEq

/-- The alerts contributed by a single circuit in one pass of the loop
body of `_check_alerts` (lines 322-351): overheat check, low-efficiency
check, sensor-failure check, in this order. -/
def circuit_alerts (c : HeatingCircuit) : List Alert :=
  (match (read_temperatures c).1 with
    | some flow_temp =>
        if 80 < flow_temp then [⟨"kritisch", c.name, .ueberhitzung flow_temp⟩] else []
    | none => []) ++
  (match calculate_temperature_difference c, (read_temperatures c).1 with
    | some diff, some flow_temp =>
        if diff < 3 ∧ 30 < flow_temp then [⟨"warnung", c.name, .geringe_effizienz diff⟩] else []
    | _, _ => []) ++
  (if is_available c then [] else [⟨"fehler", c.name, .sensor_ausfall⟩])

/-- `HeatingSystemManager._check_alerts` (lines 313-353): concatenation
of every circuit's alerts in circuit order. -/
def check_alerts (circuits : List HeatingCircuit) : List Alert :=
  circuits.flatMap circuit_alerts

/-- `AlertManager.alert_cooldown` (`src/utils/alerts.py` line 23):
30 minutes.  Times in this model are rational numbers of minutes. -/
def alert_cooldown : ℚ := 30

/-- `AlertManager.should_send_alert` (`src/utils/alerts.py` lines
42-52).  State is the `last_alerts` dictionary (alert key to time of
last send); the function returns the boolean result together with the
state after the call.  A cooldown-blocked call returns early with the
state unchanged; otherwise the entry is written and `True` returned. -/
def should_send_alert (last_alerts : String → Option ℚ) (alert_key : String) (now : ℚ) :
    Bool × (String → Option ℚ) :=
  match last_alerts alert_key with
  | some last_sent =>
      if now - last_sent < alert_cooldown then (false, last_alerts)
      else (true, Function.update last_alerts alert_key (some now))
  | none => (true, Function.update last_alerts alert_key (some now))

/-- `AlertManager.process_system_alerts` (`src/utils/alerts.py` lines
178-187): the list of alerts for which `send_alert` is invoked, namely
those whose `type` is in `['kritisch', 'critical', 'warnung',
'warning']`.  The `dict.get` defaults of the source never fire on the
system alerts produced by `_check_alerts`, which always carry all
keys. -/
def process_system_alerts (alerts : List Alert) : List Alert :=
  alerts.filter (fun a =>
    decide (a.type ∈ ["kritisch", "critical", "warnung", "warning"]))

/-- What the tail of one iteration of `HeizungsMonitor.run`
(`main.py` lines 260-273) does after the cycle body: either sleep or
log the overrun warning. -/
inductive CycleAction where
  | sleep (seconds : ℚ)
  | overrun_warning
deriving DecidableEq

/-- Lines 266-273 of `main.py`: `sleep_time = max(0, interval -
cycle_duration)`; sleep it if positive, otherwise log the overrun
warning and fall through to the next iteration. -/
def cycle_wait (monitoring_interval cycle_duration : ℚ) : List CycleAction :=
  if 0 < max 0 (monitoring_interval - cycle_duration)
  then [CycleAction.sleep (max 0 (monitoring_interval - cycle_duration))]
  else [CycleAction.overrun_warning]

/-- The `while self.running` loop of `HeizungsMonitor.run` (lines
260-273) over a finite schedule of cycle durations: each cycle is
executed exactly once, in order, followed by its `cycle_wait`
actions. -/
def run_loop (monitoring_interval : ℚ) : List ℚ → List (List CycleAction)
  | [] => []
  | d :: ds => cycle_wait monitoring_interval d :: run_loop monitoring_interval ds

/-- Return value of `HeatingRoomSensor.read_sensor_data`
(`src/sensors/dht22_sensor.py`): the dictionary with keys
`temperature`, `humidity`, `dew_point`. -/
structure SensorData where
  temperature : Option ℚ
  humidity : Option ℚ
  dew_point : Option ℚ
deriving DecidableEq

/-- The retry loop of `read_sensor_data` (lines 135-192).  Each attempt
outcome is `none` when the driver raised or returned a `None` reading,
and `some (humidity, temperature)` when both values were obtained.  A
plausible pair (`0 <= humidity <= 100` and `-20 <= temperature <= 50`)
returns immediately with values rounded to one decimal and the dew
point computed by `calc_dew_point` (the Magnus-formula helper
`_calculate_dew_point`, which uses the external math library and is
therefore a parameter here); otherwise the loop continues, and after
the last attempt the all-`None` dictionary is returned (lines
187-192). -/
def read_attempts (calc_dew_point : ℚ → ℚ → Option ℚ) :
    List (Option (ℚ × ℚ)) → SensorData
  | [] => ⟨none, none, none⟩
  | none :: rest => read_attempts calc_dew_point rest
  | some (humidity, temperature) :: rest =>
      if 0 ≤ humidity ∧ humidity ≤ 100 ∧ -20 ≤ temperature ∧ temperature ≤ 50 then
        ⟨some (pyRound 1 temperature), some (pyRound 1 humidity),
         calc_dew_point temperature humidity⟩
      else read_attempts calc_dew_point rest

/-- `HeatingRoomSensor.read_sensor_data` (lines 115-192).
`dht_available` models the module global `DHT_AVAILABLE`; `dht` models
`self.dht` (the optional sensor handle).  When no DHT library is
available or the handle is unbound, the fixed dummy dictionary
`temperature=20.0, humidity=50.0, dew_point=9.3` is returned (lines
125-131); otherwise the retry loop runs. -/
def read_sensor_data (calc_dew_point : ℚ → ℚ → Option ℚ)
    (dht_available : Bool) (dht : Option Unit)
    (attempts : List (Option (ℚ × ℚ))) : SensorData :=
  if dht_available = false ∨ dht = none then ⟨some 20, some 50, some (93/10)⟩
  else read_attempts calc_dew_point attempts

/-- One circuit entry of the YAML configuration consumed by
`HeatingSystemManager._load_configuration`
(`src/sensors/heating_sensors.py` lines 170-196). -/
structure CircuitConfig where
  name : String
  flow_sensor : String
  return_sensor : String
  target_temp : ℚ
deriving DecidableEq

/-- The three states the configuration file can be in for
`_load_configuration`: absent (raises `FileNotFoundError`), present but
unparseable (`yaml.safe_load` raises), or parsed into a circuit map. -/
inductive ConfigFile where
  | missing
  | malformed
  | parsed (heating_circuits : List CircuitConfig)

/-- Observable side effects of `_load_configuration` and
`_create_example_config` (lines 170-234). -/
inductive LoadAction where
  | log_error_not_found
  | log_create_example
  | write_example_config (cfg : List CircuitConfig)
  | log_error_loading
  | log_circuit_loaded (name : String)
deriving DecidableEq

/-- Outcome of `_load_configuration`: the circuits loaded into
`self.heating_circuits`, the logged / filesystem side effects in order,
and the exception escaping the call, if any. -/
structure LoadResult where
  heating_circuits : List CircuitConfig
  actions : List LoadAction
  raised : Option String
deriving DecidableEq

/-- The template written by `_create_example_config` (lines 198-234). -/
def example_config : List CircuitConfig :=
  [⟨"Erdgeschoss", "28-0000000001", "28-0000000002", 21⟩,
   ⟨"Obergeschoss", "28-0000000003", "28-0000000004", 20⟩,
   ⟨"Warmwasser", "28-0000000005", "28-0000000006", 45⟩]

/-- `HeatingSystemManager._load_configuration` (lines 170-196).
A missing file is caught (`except FileNotFoundError`), logged, and the
example configuration is written; any other failure — in particular a
malformed YAML file — is caught by `except Exception`, logged, and the
method returns normally with no circuits loaded.  No exception of any
kind propagates to the caller. -/
def load_configuration : ConfigFile → LoadResult
  | ConfigFile.missing =>
      ⟨[], [LoadAction.log_error_not_found, LoadAction.log_create_example,
            LoadAction.write_example_config example_config], none⟩
  | ConfigFile.malformed => ⟨[], [LoadAction.log_error_loading], none⟩
  | ConfigFile.parsed cs =>
      ⟨cs, cs.map (fun c => LoadAction.log_circuit_loaded c.name), none⟩

/-- A fully wired circuit fixture with concrete readings: flow 5.26 °C,
return 0 °C. -/
def fixture_flow526 : HeatingCircuit :=
  ⟨"Erdgeschoss", "28-0000000001", "28-0000000002", 21,
   some (), some (), some (263/50), some 0⟩

/-- A fully wired circuit fixture: flow 7.77 °C, return 0 °C, hence
temperature difference 7.77 °C. -/
def fixture_flow777 : HeatingCircuit :=
  ⟨"Erdgeschoss", "28-0000000001", "28-0000000002", 21,
   some (), some (), some (777/100), some 0⟩

/-- A fully wired circuit fixture: flow 15 °C, return 0 °C, hence
temperature difference 15 °C. -/
def fixture_diff15 : HeatingCircuit :=
  ⟨"Erdgeschoss", "28-0000000001", "28-0000000002", 21,
   some (), some (), some 15, some 0⟩

/-- A fully wired circuit fixture: flow 5 °C, return 0 °C, hence
temperature difference 5 °C.  (Difference 5 is > 2, so the circuit is
active.) -/
def fixture_diff5 : HeatingCircuit :=
  ⟨"Erdgeschoss", "28-0000000001", "28-0000000002", 21,
   some (), some (), some 5, some 0⟩

/-- A fully wired circuit fixture whose temperature difference is
exactly 2.0 °C. -/
def fixture_diff2 : HeatingCircuit :=
  ⟨"Erdgeschoss", "28-0000000001", "28-0000000002", 21,
   some (), some (), some 2, some 0⟩

/-- A circuit fixture whose return sensor handle is unbound. -/
def fixture_no_return : HeatingCircuit :=
  ⟨"Warmwasser", "28-0000000005", "28-0000000006", 45,
   some (), none, some 40, none⟩

/-- The empty alert-gate state: no alert has ever been sent. -/
def empty_gate : String → Option ℚ := fun _ => none

/-- C8: `is_active` is true exactly when the temperature difference is
present and strictly greater than 2.0 °C; a difference of exactly
2.0 °C is not active, and an absent difference is not active. -/
theorem C8_is_active_iff_diff_gt_two (c : HeatingCircuit) :
    (is_active c = true ↔
      ∃ d, calculate_temperature_difference c = some d ∧ 2 < d) ∧
    is_active fixture_diff2 = false ∧
    is_active fixture_no_return = false := by
  refine ⟨?_, ?_, ?_⟩
  · unfold is_active
    cases h : calculate_temperature_difference c with
    | none => simp
    | some d => simp
  · norm_num [is_active, calculate_temperature_difference, read_temperatures, fixture_diff2,
      pyRound, roundHalfToEven]
  · norm_num [is_active, calculate_temperature_difference, read_temperatures, fixture_no_return]

/-- C4 counterexample: the claim says the temperature difference is
bound to one decimal (`round(f - r, 1)`), but the code rounds to two
decimals.  With flow reading 5.26 °C and return reading 0 °C the code
yields 5.26 while `round(5.26 - 0, 1) = 5.3`. -/
theorem C4_counterexample_round_two_decimals :
    read_temperatures fixture_flow526 = (some (263/50), some 0) ∧
    calculate_temperature_difference fixture_flow526 = some (263/50) ∧
    pyRound 1 (263/50 - 0) = 53/10 ∧
    (263/50 : ℚ) ≠ 53/10 := by
  refine ⟨?_, ?_, ?_, by norm_num⟩
  · norm_num [read_temperatures, fixture_flow526, pyRound, roundHalfToEven]
  · norm_num [calculate_temperature_difference, read_temperatures, fixture_flow526,
      pyRound, roundHalfToEven]
  · norm_num [pyRound, roundHalfToEven]

/-- C4 (amended): the circuit's temperature difference equals
`round(f - r, 2)` — flow minus return rounded to TWO decimal places —
whenever both readings are present, and is absent whenever either the
flow or the return reading is absent. -/
theorem C4_amended_difference_rounded_two (c : HeatingCircuit) :
    (∀ f r, read_temperatures c = (some f, some r) →
      calculate_temperature_difference c = some (pyRound 2 (f - r))) ∧
    (((read_temperatures c).1 = none ∨ (read_temperatures c).2 = none) →
      calculate_temperature_difference c = none) := by
  constructor
  · intro f r h
    unfold calculate_temperature_difference
    rw [h]
  · intro h
    unfold calculate_temperature_difference
    rcases hr : read_temperatures c with ⟨a, b⟩
    rw [hr] at h
    rcases h with h | h <;> simp only at h <;> subst h
    · rfl
    · cases a <;> rfl

/-- C4 witness: the amended theorem applied to concrete circuits. -/
theorem C4_amended_witness :
    calculate_temperature_difference fixture_flow526 = some (pyRound 2 (263/50 - 0)) ∧
    calculate_temperature_difference fixture_no_return = none := by
  constructor
  · exact (C4_amended_difference_rounded_two fixture_flow526).1 (263/50) 0
      (by norm_num [read_temperatures, fixture_flow526, pyRound, roundHalfToEven])
  · exact (C4_amended_difference_rounded_two fixture_no_return).2 (Or.inr rfl)

/-- C2: with no prior entry for key `k`, two calls to the gate within
30 minutes return `(true, false)`, and a further call once 30 minutes
have elapsed since the recorded send time returns `true` again. -/
theorem C2_cooldown_true_false_true (st : String → Option ℚ) (k : String) (t0 t1 t2 : ℚ)
    (h0 : st k = none) (h2 : t1 - t0 < 30) (h3 : 30 ≤ t2 - t0) :
    (should_send_alert st k t0).1 = true ∧
    (should_send_alert (should_send_alert st k t0).2 k t1).1 = false ∧
    (should_send_alert (should_send_alert (should_send_alert st k t0).2 k t1).2 k t2).1
      = true := by
  have e0 : should_send_alert st k t0 = (true, Function.update st k (some t0)) := by
    unfold should_send_alert
    rw [h0]
  have key1 : Function.update st k (some t0) k = some t0 := Function.update_same k (some t0) st
  have e1 : should_send_alert (Function.update st k (some t0)) k t1 =
      (false, Function.update st k (some t0)) := by
    unfold should_send_alert
    rw [key1]
    simp only [alert_cooldown]
    rw [if_pos h2]
  have e2 : (should_send_alert (Function.update st k (some t0)) k t2).1 = true := by
    unfold should_send_alert
    rw [key1]
    simp only [alert_cooldown]
    rw [if_neg (not_lt.mpr h3)]
  have p0 : (should_send_alert st k t0).2 = Function.update st k (some t0) := by rw [e0]
  have p1 : (should_send_alert (Function.update st k (some t0)) k t1).2 =
      Function.update st k (some t0) := by rw [e1]
  refine ⟨?_, ?_, ?_⟩
  · rw [e0]
  · rw [p0, e1]
  · rw [p0, p1]
    exact e2

/-- C2 witness: the cooldown sequence at concrete times 0, 10, 30
minutes starting from the empty gate. -/
theorem C2_cooldown_witness :
    (should_send_alert empty_gate "k" 0).1 = true ∧
    (should_send_alert (should_send_alert empty_gate "k" 0).2 "k" 10).1 = false ∧
    (should_send_alert
      (should_send_alert (should_send_alert empty_gate "k" 0).2 "k" 10).2 "k" 30).1 = true :=
  C2_cooldown_true_false_true empty_gate "k" 0 10 30 rfl (by norm_num) (by norm_num)

/-- C7 counterexample: the claim says the stored timestamp is refreshed
on every call, but a cooldown-blocked call leaves the entry untouched:
after a send at time 0, a call at time 10 returns `false` and the entry
for the key still holds time 0, not 10. -/
theorem C7_counterexample_no_refresh_under_cooldown :
    (should_send_alert (should_send_alert empty_gate "k" 0).2 "k" 10).1 = false ∧
    (should_send_alert (should_send_alert empty_gate "k" 0).2 "k" 10).2 "k" = some 0 ∧
    ¬ ((should_send_alert (should_send_alert empty_gate "k" 0).2 "k" 10).2 "k"
        = some 10) := by
  have e0 : should_send_alert empty_gate "k" 0 =
      (true, Function.update empty_gate "k" (some 0)) := rfl
  have key1 : Function.update empty_gate "k" (some 0) "k" = some 0 :=
    Function.update_same "k" (some 0) empty_gate
  have e1 : should_send_alert (Function.update empty_gate "k" (some 0)) "k" 10 =
      (false, Function.update empty_gate "k" (some 0)) := by
    unfold should_send_alert
    rw [key1]
    simp only [alert_cooldown]
    rw [if_pos (by norm_num)]
  have p0 : (should_send_alert empty_gate "k" 0).2 =
      Function.update empty_gate "k" (some 0) := by rw [e0]
  refine ⟨?_, ?_, ?_⟩
  · rw [p0, e1]
  · rw [p0, e1]
    exact key1
  · rw [p0, e1]
    simp [key1]

/-- C7 (amended): the stored last-sent timestamp for a key is written
exactly on the calls that return `true` (entry created on first send,
refreshed on later sends after the cooldown expired); a call blocked by
the cooldown returns `false` and leaves the whole gate state
unchanged. -/
theorem C7_amended_refresh_only_on_send (st : String → Option ℚ) (k : String) (now : ℚ) :
    ((should_send_alert st k now).1 = true →
      (should_send_alert st k now).2 k = some now) ∧
    ((should_send_alert st k now).1 = false →
      (should_send_alert st k now).2 = st) := by
  unfold should_send_alert
  cases h : st k with
  | none => simp [Function.update_same]
  | some last_sent =>
      by_cases hc : now - last_sent < alert_cooldown
      · simp [hc]
      · simp [hc, Function.update_same]

/-- C7 witness: the amended theorem applied at the empty gate, key
`"k"`, time 0 — the first send records time 0. -/
theorem C7_amended_witness :
    (should_send_alert empty_gate "k" 0).2 "k" = some 0 :=
  (C7_amended_refresh_only_on_send empty_gate "k" 0).1 rfl

/-- C3 counterexample: the claim says a malformed configuration file is
always a fatal configuration error, but `_load_configuration` catches
every exception, logs it, and returns normally with no circuits loaded
— nothing is raised (no `ConfigurationError` exists anywhere in the
code base). -/
theorem C3_counterexample_malformed_not_fatal :
    (load_configuration ConfigFile.malformed).raised = none ∧
    (load_configuration ConfigFile.malformed).heating_circuits = [] :=
  ⟨rfl, rfl⟩

/-- C3 (amended): loading never raises at all.  On a missing file the
loader logs the failure and synthesizes and persists the template
configuration; on a malformed file it logs the error and continues with
an empty circuit set; on a well-formed file it loads exactly the
configured circuits. -/
theorem C3_amended_load_never_raises :
    (∀ f, (load_configuration f).raised = none) ∧
    load_configuration ConfigFile.missing =
      ⟨[], [LoadAction.log_error_not_found, LoadAction.log_create_example,
            LoadAction.write_example_config example_config], none⟩ ∧
    load_configuration ConfigFile.malformed =
      ⟨[], [LoadAction.log_error_loading], none⟩ ∧
    (∀ cs, (load_configuration (ConfigFile.parsed cs)).heating_circuits = cs) :=
  ⟨fun f => by cases f <;> rfl, rfl, rfl, fun cs => rfl⟩

/-- C6: after each cycle the scheduler sleeps exactly
`max(0, interval - elapsed)`: a positive remainder is slept in full, an
overrun (`elapsed >= interval`) logs the warning and proceeds with zero
delay, a sleep action always has a positive duration, and the loop
handles every scheduled cycle exactly once, in order, without skipping
or queuing. -/
theorem C6_sleep_never_negative (monitoring_interval d : ℚ) (ds : List ℚ) :
    (d < monitoring_interval →
      cycle_wait monitoring_interval d
        = [CycleAction.sleep (max 0 (monitoring_interval - d))] ∧
      max 0 (monitoring_interval - d) = monitoring_interval - d) ∧
    (monitoring_interval ≤ d →
      cycle_wait monitoring_interval d = [CycleAction.overrun_warning]) ∧
    (∀ s, CycleAction.sleep s ∈ cycle_wait monitoring_interval d →
      s = max 0 (monitoring_interval - d) ∧ 0 < s) ∧
    run_loop monitoring_interval ds = ds.map (cycle_wait monitoring_interval) := by
  refine ⟨?_, ?_, ?_, ?_⟩
  · intro h
    have hp : 0 < monitoring_interval - d := sub_pos.mpr h
    have hm : max 0 (monitoring_interval - d) = monitoring_interval - d := max_eq_right hp.le
    refine ⟨?_, hm⟩
    unfold cycle_wait
    rw [hm, if_pos hp]
  · intro h
    have hm : max 0 (monitoring_interval - d) = 0 := max_eq_left (sub_nonpos.mpr h)
    unfold cycle_wait
    rw [hm, if_neg (lt_irrefl 0)]
  · intro s hs
    unfold cycle_wait at hs
    by_cases hp : 0 < max 0 (monitoring_interval - d)
    · rw [if_pos hp] at hs
      simp only [List.mem_singleton, CycleAction.sleep.injEq] at hs
      exact ⟨hs, hs ▸ hp⟩
    · rw [if_neg hp] at hs
      simp at hs
  · induction ds with
    | nil => rfl
    | cons d0 ds ih => simp [run_loop, ih]

/-- C6 witness: with a 30-second interval, a 40-second cycle logs the
overrun and sleeps nothing; a 10-second cycle sleeps the positive
remainder. -/
theorem C6_sleep_witness :
    cycle_wait 30 40 = [CycleAction.overrun_warning] ∧
    cycle_wait 30 10 = [CycleAction.sleep (max 0 (30 - 10))] :=
  ⟨(C6_sleep_never_negative 30 40 []).2.1 (by norm_num),
   ((C6_sleep_never_negative 30 10 []).1 (by norm_num)).1⟩

/-- C9: only alerts typed `kritisch`, `critical`, `warnung` or
`warning` are handed to the send path; any other type — in particular
the `fehler` sensor-failure alerts — is never forwarded, even though it
is present in the snapshot's alert list. -/
theorem C9_only_critical_warning_forwarded (alerts : List Alert) :
    (∀ a ∈ process_system_alerts alerts,
      a.type ∈ ["kritisch", "critical", "warnung", "warning"]) ∧
    (∀ a, a.type ∉ ["kritisch", "critical", "warnung", "warning"] →
      a ∉ process_system_alerts alerts) ∧
    (∀ a, a.type = "fehler" → a ∉ process_system_alerts alerts) ∧
    Alert.mk "fehler" "Warmwasser" AlertMessage.sensor_ausfall ∈
      check_alerts [fixture_no_return] ∧
    Alert.mk "fehler" "Warmwasser" AlertMessage.sensor_ausfall ∉
      process_system_alerts (check_alerts [fixture_no_return]) := by
  have h1 : ∀ a ∈ process_system_alerts alerts,
      a.type ∈ ["kritisch", "critical", "warnung", "warning"] := by
    intro a ha
    rw [process_system_alerts, List.mem_filter] at ha
    exact of_decide_eq_true ha.2
  refine ⟨h1, fun a hna hmem => hna (h1 a hmem),
    fun a hf hmem => absurd (hf ▸ h1 a hmem) (by decide), ?_, ?_⟩
  · norm_num [check_alerts, circuit_alerts, read_temperatures,
      calculate_temperature_difference, is_available, fixture_no_return,
      pyRound, roundHalfToEven]
  · intro hmem
    rw [process_system_alerts, List.mem_filter] at hmem
    exact absurd (of_decide_eq_true hmem.2) (by decide)

/-- C9 witness: a concrete `fehler` alert is not forwarded. -/
theorem C9_fehler_witness :
    Alert.mk "fehler" "Warmwasser" AlertMessage.sensor_ausfall ∉
      process_system_alerts [Alert.mk "fehler" "Warmwasser" AlertMessage.sensor_ausfall] :=
  (C9_only_critical_warning_forwarded
    [Alert.mk "fehler" "Warmwasser" AlertMessage.sensor_ausfall]).2.2.1
    (Alert.mk "fehler" "Warmwasser" AlertMessage.sensor_ausfall) rfl

/-- C5: per circuit and cycle, the aggregator's alert list contains a
critical (`kritisch`) overheat alert iff the flow temperature is
present and above 80 °C, a low-efficiency warning (`warnung`) iff the
difference is present and below 3 °C while the flow temperature is
present and above 30 °C, and a sensor-failure error (`fehler`) iff the
circuit is not available; no other alerts are produced, and the system
alert list is exactly the concatenation of the per-circuit lists. -/
theorem C5_alert_derivation (c : HeatingCircuit) :
    ((∃ ft, Alert.mk "kritisch" c.name (AlertMessage.ueberhitzung ft) ∈ circuit_alerts c) ↔
      (∃ ft, (read_temperatures c).1 = some ft ∧ 80 < ft)) ∧
    ((∃ d, Alert.mk "warnung" c.name (AlertMessage.geringe_effizienz d) ∈ circuit_alerts c) ↔
      (∃ d ft, calculate_temperature_difference c = some d ∧ d < 3 ∧
        (read_temperatures c).1 = some ft ∧ 30 < ft)) ∧
    (Alert.mk "fehler" c.name AlertMessage.sensor_ausfall ∈ circuit_alerts c ↔
      is_available c = false) ∧
    (∀ a ∈ circuit_alerts c,
      (∃ ft, a = Alert.mk "kritisch" c.name (AlertMessage.ueberhitzung ft)) ∨
      (∃ d, a = Alert.mk "warnung" c.name (AlertMessage.geringe_effizienz d)) ∨
      a = Alert.mk "fehler" c.name AlertMessage.sensor_ausfall) ∧
    (∀ circuits a, a ∈ check_alerts circuits ↔
      ∃ c' ∈ circuits, a ∈ circuit_alerts c') := by
  refine ⟨?_, ?_, ?_, ?_, ?_⟩
  · unfold circuit_alerts
    cases hF : (read_temperatures c).1 <;>
      cases hD : calculate_temperature_difference c <;>
        cases hA : is_available c <;>
          simp_all <;> (try split_ifs <;> simp_all)
  · unfold circuit_alerts
    cases hF : (read_temperatures c).1 <;>
      cases hD : calculate_temperature_difference c <;>
        cases hA : is_available c <;>
          simp_all <;> (try split_ifs <;> simp_all)
  · unfold circuit_alerts
    cases hF : (read_temperatures c).1 <;>
      cases hD : calculate_temperature_difference c <;>
        cases hA : is_available c <;>
          simp_all <;> (try split_ifs <;> simp_all)
  · unfold circuit_alerts
    cases hF : (read_temperatures c).1 <;>
      cases hD : calculate_temperature_difference c <;>
        cases hA : is_available c <;>
          simp_all <;> (try split_ifs <;> simp_all) <;> aesop
  · intro circuits a
    simp [check_alerts, List.mem_flatMap]

/-- C5 witness: the circuit with the unbound return sensor contributes
the sensor-failure alert. -/
theorem C5_alert_witness :
    Alert.mk "fehler" "Warmwasser" AlertMessage.sensor_ausfall ∈
      circuit_alerts fixture_no_return :=
  ((C5_alert_derivation fixture_no_return).2.2.1).mpr rfl

theorem roundHalfToEven_le (x : ℚ) (B : ℤ) (h : x ≤ B) : roundHalfToEven x ≤ B := by
  have hfl : ⌊x⌋ ≤ B := by
    have := Int.floor_le_floor h
    simpa using this
  have hstep : ¬(x - ⌊x⌋ < 1/2) → ⌊x⌋ + 1 ≤ B := by
    intro h1
    have h2 : (1:ℚ)/2 ≤ x - ⌊x⌋ := not_lt.mp h1
    have hlt : (⌊x⌋ : ℚ) < x := by linarith
    have hlt2 : (⌊x⌋ : ℚ) < (B : ℚ) := lt_of_lt_of_le hlt h
    have : ⌊x⌋ < B := by exact_mod_cast hlt2
    omega
  unfold roundHalfToEven
  split_ifs with h1 h2 h3
  · exact hfl
  · exact hstep h1
  · exact hfl
  · exact hstep h1

theorem le_roundHalfToEven (x : ℚ) (B : ℤ) (h : (B:ℚ) ≤ x) : B ≤ roundHalfToEven x := by
  have hfl : B ≤ ⌊x⌋ := Int.le_floor.mpr h
  unfold roundHalfToEven
  split_ifs <;> omega

theorem pyRound_one_nonneg (x : ℚ) (h : 0 ≤ x) : 0 ≤ pyRound 1 x := by
  unfold pyRound
  have h10 : ((0 : ℤ) : ℚ) ≤ x * 10 ^ 1 := by
    push_cast
    nlinarith
  have hr := le_roundHalfToEven (x * 10 ^ 1) 0 h10
  have hc : (0:ℚ) ≤ (roundHalfToEven (x * 10 ^ 1) : ℚ) := by exact_mod_cast hr
  positivity

theorem pyRound_one_le_100 (x : ℚ) (h : x ≤ 100) : pyRound 1 x ≤ 100 := by
  unfold pyRound
  have h10 : x * 10 ^ 1 ≤ ((1000 : ℤ) : ℚ) := by
    push_cast
    nlinarith
  have hr := roundHalfToEven_le (x * 10 ^ 1) 1000 h10
  have hc : (roundHalfToEven (x * 10 ^ 1) : ℚ) ≤ 1000 := by exact_mod_cast hr
  rw [div_le_iff (by norm_num : (0:ℚ) < 10 ^ 1)]
  linarith

/-- C1 counterexample: the claim gives the efficiency as exactly
`clamp(0, 100, (d - 5) / 10 * 67 + 33)`, but the code rounds that value
to one decimal.  One active circuit with difference 7.77 °C gives the
clamp value 51.559, while the code returns 51.6. -/
theorem C1_counterexample_efficiency_rounded :
    active_circuit_diffs [fixture_flow777] = [777/100] ∧
    calculate_system_efficiency [fixture_flow777] = some (258/5) ∧
    min (100 : ℚ) (max 0 ((777/100 - 5) / 10 * 67 + 33)) = 51559/1000 ∧
    (258/5 : ℚ) ≠ 51559/1000 := by
  have h1 : active_circuit_diffs [fixture_flow777] = [777/100] := by
    norm_num [active_circuit_diffs, calculate_temperature_difference, read_temperatures,
      fixture_flow777, pyRound, roundHalfToEven, List.filterMap_cons, List.filterMap_nil,
      Option.some_bind]
  refine ⟨h1, ?_, by norm_num [min_def, max_def], by norm_num⟩
  unfold calculate_system_efficiency
  rw [h1]
  norm_num [pyRound, roundHalfToEven, min_def, max_def]

/-- C1 (amended): the system efficiency is absent exactly when no
circuit has a temperature difference strictly greater than 2 °C;
otherwise it equals `clamp(0, 100, (d - 5) / 10 * 67 + 33)` ROUNDED TO
ONE DECIMAL, where `d` averages the active circuits' differences, so
that d = 15 still yields 100 and d = 5 yields 33, and the result always
lies in [0, 100]. -/
theorem C1_amended_efficiency_clamped (circuits : List HeatingCircuit) :
    (calculate_system_efficiency circuits = none ↔
      ∀ c ∈ circuits, ∀ d, calculate_temperature_difference c = some d → d ≤ 2) ∧
    (∀ e, calculate_system_efficiency circuits = some e →
      e = pyRound 1 (min 100 (max 0
        (((active_circuit_diffs circuits).sum /
          ((active_circuit_diffs circuits).length : ℚ) - 5) / 10 * 67 + 33))) ∧
      0 ≤ e ∧ e ≤ 100) ∧
    calculate_system_efficiency [fixture_diff15] = some 100 ∧
    calculate_system_efficiency [fixture_diff5] = some 33 := by
  have hnil : active_circuit_diffs circuits = [] ↔
      (∀ c ∈ circuits, ∀ d, calculate_temperature_difference c = some d → d ≤ 2) := by
    unfold active_circuit_diffs
    rw [List.filterMap_eq_nil]
    constructor
    · intro h c hc d hd
      have hfc := h c hc
      simp only [hd, Option.some_bind] at hfc
      by_contra hgt
      push_neg at hgt
      rw [if_pos hgt] at hfc
      exact Option.some_ne_none d hfc
    · intro h c hc
      cases hd : calculate_temperature_difference c with
      | none => simp only [hd, Option.none_bind]
      | some d =>
          have hle := h c hc d hd
          simp only [hd, Option.some_bind]
          rw [if_neg (not_lt.mpr hle)]
  refine ⟨?_, ?_, ?_, ?_⟩
  · have hlen : calculate_system_efficiency circuits = none ↔
        (active_circuit_diffs circuits).length = 0 := by
      unfold calculate_system_efficiency
      split_ifs with h0
      · simp [h0]
      · simp [h0]
    rw [hlen, List.length_eq_zero, hnil]
  · intro e he
    unfold calculate_system_efficiency at he
    by_cases h0 : (active_circuit_diffs circuits).length = 0
    · rw [if_pos h0] at he
      exact absurd he (by simp)
    · rw [if_neg h0] at he
      have hx := Option.some.inj he
      refine ⟨hx.symm, ?_, ?_⟩
      · rw [← hx]
        exact pyRound_one_nonneg _ (le_min (by norm_num) (le_max_left 0 _))
      · rw [← hx]
        exact pyRound_one_le_100 _ (min_le_left _ _)
  · norm_num [calculate_system_efficiency, active_circuit_diffs,
      calculate_temperature_difference, read_temperatures, fixture_diff15,
      pyRound, roundHalfToEven, List.filterMap_cons, List.filterMap_nil,
      Option.some_bind, min_def, max_def]
  · norm_num [calculate_system_efficiency, active_circuit_diffs,
      calculate_temperature_difference, read_temperatures, fixture_diff5,
      pyRound, roundHalfToEven, List.filterMap_cons, List.filterMap_nil,
      Option.some_bind, min_def, max_def]

/-- C1 witness: the amended theorem applied to the single circuit with
difference 15 °C, whose efficiency is 100. -/
theorem C1_amended_witness :
    (100 : ℚ) = pyRound 1 (min 100 (max 0
      (((active_circuit_diffs [fixture_diff15]).sum /
        ((active_circuit_diffs [fixture_diff15]).length : ℚ) - 5) / 10 * 67 + 33))) ∧
    (0:ℚ) ≤ 100 ∧ (100:ℚ) ≤ 100 :=
  (C1_amended_efficiency_clamped [fixture_diff15]).2.1 100
    (C1_amended_efficiency_clamped [fixture_diff15]).2.2.1

theorem read_attempts_all_none_iff (calc_dew_point : ℚ → ℚ → Option ℚ)
    (attempts : List (Option (ℚ × ℚ))) :
    read_attempts calc_dew_point attempts = ⟨none, none, none⟩ ↔
      ∀ hu t, some (hu, t) ∈ attempts →
        ¬(0 ≤ hu ∧ hu ≤ 100 ∧ -20 ≤ t ∧ t ≤ 50) := by
  induction attempts with
  | nil => simp [read_attempts]
  | cons p rest ih =>
      cases p with
      | none =>
          rw [show read_attempts calc_dew_point (none :: rest) =
            read_attempts calc_dew_point rest from rfl, ih]
          constructor
          · intro h hu t hmem
            rcases List.mem_cons.mp hmem with he | hm
            · exact absurd he (by simp)
            · exact h hu t hm
          · intro h hu t hm
            exact h hu t (List.mem_cons_of_mem _ hm)
      | some pr =>
          obtain ⟨hu0, t0⟩ := pr
          by_cases hp : 0 ≤ hu0 ∧ hu0 ≤ 100 ∧ -20 ≤ t0 ∧ t0 ≤ 50
          · constructor
            · intro hEq
              rw [show read_attempts calc_dew_point (some (hu0, t0) :: rest) =
                (if 0 ≤ hu0 ∧ hu0 ≤ 100 ∧ -20 ≤ t0 ∧ t0 ≤ 50 then
                  ⟨some (pyRound 1 t0), some (pyRound 1 hu0), calc_dew_point t0 hu0⟩
                 else read_attempts calc_dew_point rest) from rfl, if_pos hp] at hEq
              exact absurd hEq (by simp)
            · intro hAll
              exact absurd hp (hAll hu0 t0 (List.mem_cons_self _ _))
          · rw [show read_attempts calc_dew_point (some (hu0, t0) :: rest) =
              (if 0 ≤ hu0 ∧ hu0 ≤ 100 ∧ -20 ≤ t0 ∧ t0 ≤ 50 then
                ⟨some (pyRound 1 t0), some (pyRound 1 hu0), calc_dew_point t0 hu0⟩
               else read_attempts calc_dew_point rest) from rfl, if_neg hp, ih]
            constructor
            · intro h hu t hmem
              rcases List.mem_cons.mp hmem with he | hm
              · rcases Option.some.inj he with he'
                rcases Prod.mk.injEq .. ▸ he' with ⟨rfl, rfl⟩
                exact hp
              · exact h hu t hm
            · intro h hu t hm
              exact h hu t (List.mem_cons_of_mem _ hm)

theorem read_attempts_temperature_none (calc_dew_point : ℚ → ℚ → Option ℚ)
    (attempts : List (Option (ℚ × ℚ))) :
    (read_attempts calc_dew_point attempts).temperature = none →
      read_attempts calc_dew_point attempts = ⟨none, none, none⟩ := by
  induction attempts with
  | nil => intro _; rfl
  | cons p rest ih =>
      cases p with
      | none =>
          rw [show read_attempts calc_dew_point (none :: rest) =
            read_attempts calc_dew_point rest from rfl]
          exact ih
      | some pr =>
          obtain ⟨hu0, t0⟩ := pr
          by_cases hp : 0 ≤ hu0 ∧ hu0 ≤ 100 ∧ -20 ≤ t0 ∧ t0 ≤ 50
          · rw [show read_attempts calc_dew_point (some (hu0, t0) :: rest) =
              (if 0 ≤ hu0 ∧ hu0 ≤ 100 ∧ -20 ≤ t0 ∧ t0 ≤ 50 then
                ⟨some (pyRound 1 t0), some (pyRound 1 hu0), calc_dew_point t0 hu0⟩
               else read_attempts calc_dew_point rest) from rfl, if_pos hp]
            intro h
            exact absurd h (by simp)
          · rw [show read_attempts calc_dew_point (some (hu0, t0) :: rest) =
              (if 0 ≤ hu0 ∧ hu0 ≤ 100 ∧ -20 ≤ t0 ∧ t0 ≤ 50 then
                ⟨some (pyRound 1 t0), some (pyRound 1 hu0), calc_dew_point t0 hu0⟩
               else read_attempts calc_dew_point rest) from rfl, if_neg hp]
            exact ih

/-- C10: when no DHT library is available or the sensor handle is
unbound, `read_sensor_data` returns the fixed fabricated values
temperature = 20.0 °C, humidity = 50.0 %, dew point = 9.3 °C instead of
absent values; the all-absent reading is returned exactly when a bound
sensor fails or yields an implausible pair on every attempt. -/
theorem C10_dummy_values_when_unbound (calc_dew_point : ℚ → ℚ → Option ℚ)
    (dht_available : Bool) (dht : Option Unit)
    (attempts : List (Option (ℚ × ℚ))) :
    ((dht_available = false ∨ dht = none) →
      read_sensor_data calc_dew_point dht_available dht attempts =
        ⟨some 20, some 50, some (93/10)⟩) ∧
    (read_sensor_data calc_dew_point true (some ()) attempts = ⟨none, none, none⟩ ↔
      ∀ hu t, some (hu, t) ∈ attempts →
        ¬(0 ≤ hu ∧ hu ≤ 100 ∧ -20 ≤ t ∧ t ≤ 50)) ∧
    ((read_sensor_data calc_dew_point true (some ()) attempts).temperature = none →
      read_sensor_data calc_dew_point true (some ()) attempts = ⟨none, none, none⟩) := by
  have hred : read_sensor_data calc_dew_point true (some ()) attempts =
      read_attempts calc_dew_point attempts := by
    unfold read_sensor_data
    rw [if_neg (by simp)]
  refine ⟨?_, ?_, ?_⟩
  · intro h
    unfold read_sensor_data
    rw [if_pos h]
  · rw [hred]
    exact read_attempts_all_none_iff calc_dew_point attempts
  · rw [hred]
    exact read_attempts_temperature_none calc_dew_point attempts

/-- C10 witness: with no DHT library, the dummy values are returned. -/
theorem C10_dummy_witness :
    read_sensor_data (fun _ _ => none) false none [] =
      ⟨some 20, some 50, some (93/10)⟩ :=
  (C10_dummy_values_when_unbound (fun _ _ => none) false none []).1 (Or.inl rfl)
